import Mathlib

/-!
Shallow embedding of a stereo VR demo application (GLFW window loop, an
Oculus-style frame submission pipeline in RiftApp, and the CO2/O2 particle
minigame in ColorCubeScene), together with theorems about its behaviour.

Conventions of the embedding:
- float values from the C++ source are embedded as rationals;
- std::clock values (clock_t ticks, Windows CLOCKS_PER_SEC = 1000) are
  embedded as integers;
- calls into the Oculus runtime (predicted poses, input state, texture
  sizes, std::clock, rand) are oracles: their per-frame results are fields
  of an input record consumed by the embedded step functions;
- side effects that the theorems talk about (render callbacks, viewport
  selection, swap-chain commits, frame submission, haptic vibration
  requests, log output) are reified as event lists returned by the step
  functions.
-/

/-- glm vec3 (float components embedded as rationals). -/
structure Vec3 where
  x : ℚ
  y : ℚ
  z : ℚ
deriving DecidableEq

/-- glm vec4. -/
structure Vec4 where
  x : ℚ
  y : ℚ
  z : ℚ
  w : ℚ
deriving DecidableEq

/-- glm mat4, column-major exactly as glm stores it: field ci is column i,
so the translation part of an affine transform is column c3. -/
structure Mat4 where
  c0 : Vec4
  c1 : Vec4
  c2 : Vec4
  c3 : Vec4
deriving DecidableEq

def Vec3.sub (a b : Vec3) : Vec3 := ⟨a.x - b.x, a.y - b.y, a.z - b.z⟩

instance : Sub Vec3 := ⟨Vec3.sub⟩

/-- glm::cross. -/
def Vec3.cross (a b : Vec3) : Vec3 :=
  ⟨a.y * b.z - a.z * b.y, a.z * b.x - a.x * b.z, a.x * b.y - a.y * b.x⟩

/-- Squared euclidean norm; the source compares glm::length (a square
root) against thresholds, which we embed by comparing squares. -/
def Vec3.normSq (a : Vec3) : ℚ := a.x * a.x + a.y * a.y + a.z * a.z

/-- Matrix-vector product (glm `mat4 * vec4`, column-major). -/
def Mat4.mulVec (m : Mat4) (v : Vec4) : Vec4 :=
  ⟨m.c0.x * v.x + m.c1.x * v.y + m.c2.x * v.z + m.c3.x * v.w,
   m.c0.y * v.x + m.c1.y * v.y + m.c2.y * v.z + m.c3.y * v.w,
   m.c0.z * v.x + m.c1.z * v.y + m.c2.z * v.z + m.c3.z * v.w,
   m.c0.w * v.x + m.c1.w * v.y + m.c2.w * v.z + m.c3.w * v.w⟩

/-- Matrix product (glm `mat4 * mat4`). -/
def Mat4.mul (a b : Mat4) : Mat4 :=
  ⟨a.mulVec b.c0, a.mulVec b.c1, a.mulVec b.c2, a.mulVec b.c3⟩

def Vec4.comp (v : Vec4) (i : Fin 4) : ℚ :=
  if i.val = 0 then v.x else if i.val = 1 then v.y else if i.val = 2 then v.z else v.w

def Mat4.col (m : Mat4) (j : Fin 4) : Vec4 :=
  if j.val = 0 then m.c0 else if j.val = 1 then m.c1 else if j.val = 2 then m.c2 else m.c3

/-- Entry in row i, column j. -/
def Mat4.entry (m : Mat4) (i j : Fin 4) : ℚ := (m.col j).comp i

def Mat4.ofEntry (f : Fin 4 → Fin 4 → ℚ) : Mat4 :=
  ⟨⟨f 0 0, f 1 0, f 2 0, f 3 0⟩, ⟨f 0 1, f 1 1, f 2 1, f 3 1⟩,
   ⟨f 0 2, f 1 2, f 2 2, f 3 2⟩, ⟨f 0 3, f 1 3, f 2 3, f 3 3⟩⟩

/-- The index map that skips index k (used to form 3x3 minors). -/
def drop4 (k : Fin 4) (i : Fin 3) : Fin 4 :=
  if h : i.val < k.val then ⟨i.val, by omega⟩ else ⟨i.val + 1, by omega⟩

/-- Determinant of a 3x3 matrix given by its entry function. -/
def det3f (f : Fin 3 → Fin 3 → ℚ) : ℚ :=
  f 0 0 * (f 1 1 * f 2 2 - f 1 2 * f 2 1)
    - f 0 1 * (f 1 0 * f 2 2 - f 1 2 * f 2 0)
    + f 0 2 * (f 1 0 * f 2 1 - f 1 1 * f 2 0)

/-- 3x3 minor of a mat4 obtained by deleting row i and column j. -/
def Mat4.minor (m : Mat4) (i j : Fin 4) : ℚ :=
  det3f (fun r c => m.entry (drop4 i r) (drop4 j c))

/-- Cofactor in position (i, j). -/
def Mat4.cof (m : Mat4) (i j : Fin 4) : ℚ :=
  (if (i.val + j.val) % 2 = 0 then (1 : ℚ) else -1) * m.minor i j

/-- Determinant (Laplace expansion along the first row). -/
def Mat4.det (m : Mat4) : ℚ :=
  m.entry 0 0 * m.cof 0 0 + m.entry 0 1 * m.cof 0 1
    + m.entry 0 2 * m.cof 0 2 + m.entry 0 3 * m.cof 0 3

/-- glm::inverse on mat4: the matrix inverse, embedded over the rationals
by the adjugate formula (transposed cofactors divided by the determinant). -/
def Mat4.inverse (m : Mat4) : Mat4 :=
  Mat4.ofEntry (fun i j => m.cof j i / m.det)

/-- glm::translate(v): identity with translation column v. -/
def Mat4.translate (v : Vec3) : Mat4 :=
  ⟨⟨1, 0, 0, 0⟩, ⟨0, 1, 0, 0⟩, ⟨0, 0, 1, 0⟩, ⟨v.x, v.y, v.z, 1⟩⟩

/-- The translation part transform[3] of an affine transform. -/
def Mat4.translation (m : Mat4) : Vec3 := ⟨m.c3.x, m.c3.y, m.c3.z⟩

/-- An ovrQuatf / glm quaternion. -/
structure Quat where
  x : ℚ
  y : ℚ
  z : ℚ
  w : ℚ
deriving DecidableEq

/-- glm::mat4_cast of a quaternion (rotation matrix, column-major),
with a (0,0,0,1) last column. -/
def Quat.toMat4 (q : Quat) : Mat4 :=
  ⟨⟨1 - 2 * (q.y * q.y + q.z * q.z), 2 * (q.x * q.y + q.w * q.z),
      2 * (q.x * q.z - q.w * q.y), 0⟩,
   ⟨2 * (q.x * q.y - q.w * q.z), 1 - 2 * (q.x * q.x + q.z * q.z),
      2 * (q.y * q.z + q.w * q.x), 0⟩,
   ⟨2 * (q.x * q.z + q.w * q.y), 2 * (q.y * q.z - q.w * q.x),
      1 - 2 * (q.x * q.x + q.y * q.y), 0⟩,
   ⟨0, 0, 0, 1⟩⟩

/-- An ovrPosef: position plus orientation. -/
structure Pose where
  position : Vec3
  orientation : Quat
deriving DecidableEq

/-- ovr::toGlm(const ovrPosef &): translation * orientation. -/
def ovrPoseToMat (p : Pose) : Mat4 :=
  Mat4.mul (Mat4.translate p.position) p.orientation.toMat4

/-- OVR_SUCCESS(result): an ovrResult is a success when it is nonnegative. -/
def OVR_SUCCESS (r : Int) : Prop := 0 ≤ r

instance (r : Int) : Decidable (OVR_SUCCESS r) := by
  unfold OVR_SUCCESS; infer_instance

/-- The two eyes, ovrEye_Left = 0 and ovrEye_Right = 1. -/
def LEFT : Fin 2 := 0

def RIGHT : Fin 2 := 1

/-- ovr::for_each_eye iterates the eyes in this fixed order. -/
def eyeList : List (Fin 2) := [LEFT, RIGHT]

/-- A viewport / ovrRecti within the shared render target (sizes from
ovr_GetFovTextureSize are nonnegative, embedded as naturals). -/
structure Rect where
  pos : ℕ × ℕ
  size : ℕ × ℕ
deriving DecidableEq

/-- The "eye position" scalar fed to shading: the componentwise average of
the two predicted eye positions (RiftApp::draw). -/
def eyeposOf (poses : Fin 2 → Pose) : Vec3 :=
  ⟨((poses 0).position.x + (poses 1).position.x) / 2,
   ((poses 0).position.y + (poses 1).position.y) / 2,
   ((poses 0).position.z + (poses 1).position.z) / 2⟩

/-- The arguments of one ColorCubeScene::render invocation (projection,
view matrix, eye position scalar). -/
structure SceneCall where
  proj : Mat4
  view : Mat4
  eyepos : Vec3
deriving DecidableEq

/-- ExampleApp::renderScene forwards to the scene render with the INVERSE
of the head pose it received as the view matrix:
cubeScene->render(projection, glm::inverse(headPose), _session, eyepos). -/
def ExampleApp.renderScene (projection headPose : Mat4) (eyepos : Vec3) : SceneCall :=
  ⟨projection, headPose.inverse, eyepos⟩

/-- One per-eye render performed inside RiftApp::draw: which eye, the
viewport that was set for it, and the scene call it produced. -/
structure EyeRender where
  eye : Fin 2
  viewport : Rect
  scene : SceneCall
deriving DecidableEq

/-- The GL / OVR side effects of RiftApp::draw, in program order. -/
inductive DrawEvent where
  | getEyePoses : DrawEvent
  | acquireSlot : DrawEvent
  | bindTarget : DrawEvent
  | setViewport : Fin 2 → DrawEvent
  | renderEye : Fin 2 → DrawEvent
  | commitChain : DrawEvent
  | submitFrame : Int → DrawEvent
  | mirrorBlit : DrawEvent
deriving DecidableEq

/-- The per-frame oracle inputs of RiftApp::draw: the predicted eye poses
returned by ovr_GetEyePoses, the previous contents of the persistent
_sceneLayer.RenderPose array, and the ovrResult that ovr_SubmitFrame
returns for this frame. -/
structure DrawInput where
  eyePoses : Fin 2 → Pose
  prevRenderPose : Fin 2 → Pose
  submitResult : Int

/-- Everything RiftApp::draw produced in one frame: the submitted layer's
RenderPose array, the render callback invocations, the effect trace and
any log output (the source writes nothing to the log in draw). -/
structure DrawTrace where
  renderPose : Fin 2 → Pose
  calls : List EyeRender
  events : List DrawEvent
  logs : List String

/-- RiftApp::draw: predict eye poses, bind the current swap-chain slot,
then for each eye in order set that eye's viewport, record the predicted
pose in the layer (_sceneLayer.RenderPose[eye] = eyePoses[eye]) and invoke
the render callback with that eye's projection and toGlm(eyePoses[eye]);
finally commit the swap chain, submit the layer (the ovrResult of
ovr_SubmitFrame is not inspected) and blit the mirror texture. -/
def RiftApp.draw (projs : Fin 2 → Mat4) (vps : Fin 2 → Rect) (inp : DrawInput) : DrawTrace :=
  let eyepos := eyeposOf inp.eyePoses
  let r := eyeList.foldl
    (fun (acc : (Fin 2 → Pose) × List EyeRender × List DrawEvent) e =>
      (Function.update acc.1 e (inp.eyePoses e),
       acc.2.1 ++ [⟨e, vps e,
         ExampleApp.renderScene (projs e) (ovrPoseToMat (inp.eyePoses e)) eyepos⟩],
       acc.2.2 ++ [DrawEvent.setViewport e, DrawEvent.renderEye e]))
    (inp.prevRenderPose, [], [])
  { renderPose := r.1
    calls := r.2.1
    events := [DrawEvent.getEyePoses, DrawEvent.acquireSlot, DrawEvent.bindTarget]
      ++ r.2.2 ++ [DrawEvent.commitChain, DrawEvent.submitFrame inp.submitResult,
        DrawEvent.mirrorBlit]
    logs := [] }

/-- The run loop of GlfwApp::run calls draw once per tick, unconditionally,
for as many ticks as the window stays open. -/
def RiftApp.runFrames (projs : Fin 2 → Mat4) (vps : Fin 2 → Rect)
    (N : ℕ) (inps : ℕ → DrawInput) : List DrawTrace :=
  (List.range N).map (fun k => RiftApp.draw projs vps (inps k))

/-- Claim C1: for every frame, the pose recorded in the submitted layer for
each eye equals the pose used to build that eye's view matrix: draw assigns
the predicted pose for eye e to RenderPose[e], and the render callback for
eye e receives the inverse of the matrix of that exact same pose as its
view matrix, with no cross-eye mixing between left and right. -/
theorem eye_pose_roundtrip :
    ∀ (projs : Fin 2 → Mat4) (vps : Fin 2 → Rect) (inp : DrawInput),
    ((RiftApp.draw projs vps inp).renderPose LEFT = inp.eyePoses LEFT
        ∧ (RiftApp.draw projs vps inp).renderPose RIGHT = inp.eyePoses RIGHT)
      ∧ (RiftApp.draw projs vps inp).calls =
          [⟨LEFT, vps LEFT, ExampleApp.renderScene (projs LEFT)
              (ovrPoseToMat ((RiftApp.draw projs vps inp).renderPose LEFT))
              (eyeposOf inp.eyePoses)⟩,
           ⟨RIGHT, vps RIGHT, ExampleApp.renderScene (projs RIGHT)
              (ovrPoseToMat ((RiftApp.draw projs vps inp).renderPose RIGHT))
              (eyeposOf inp.eyePoses)⟩]
      ∧ (RiftApp.draw projs vps inp).calls.map (fun c => c.scene.view) =
          [(ovrPoseToMat (inp.eyePoses LEFT)).inverse,
           (ovrPoseToMat (inp.eyePoses RIGHT)).inverse] := by
  intro projs vps inp
  refine ⟨⟨?_, ?_⟩, ?_, ?_⟩ <;>
    simp [RiftApp.draw, eyeList, LEFT, RIGHT, ExampleApp.renderScene,
      Function.update, Fin.ext_iff]

/-- The packed stereo layout: the per-eye viewports stored in
_sceneLayer.Viewport and the accumulated _renderTargetSize. -/
structure Layout where
  viewports : Fin 2 → Rect
  renderTargetSize : ℕ × ℕ

/-- Before the constructor loop runs, _sceneLayer is memset to zero and
_renderTargetSize is value-initialized to zero. -/
def layoutInit : Layout := ⟨fun _ => ⟨(0, 0), (0, 0)⟩, (0, 0)⟩

/-- One iteration of the RiftApp constructor loop for one eye: the eye's
viewport position is the current accumulated width with y = 0 and its size
is that eye's ovr_GetFovTextureSize result; then the target height becomes
the max with this eye's height and the target width grows by this eye's
width. -/
def layoutStep (L : Layout) (e : Fin 2) (eyeSize : ℕ × ℕ) : Layout :=
  { viewports := Function.update L.viewports e ⟨(L.renderTargetSize.1, 0), eyeSize⟩
    renderTargetSize :=
      (L.renderTargetSize.1 + eyeSize.1, max L.renderTargetSize.2 eyeSize.2) }

/-- The RiftApp constructor computes the stereo layout by folding the
per-eye step over both eyes in order (ovr::for_each_eye). -/
def RiftApp.computeLayout (eyeSizes : Fin 2 → ℕ × ℕ) : Layout :=
  eyeList.foldl (fun L e => layoutStep L e (eyeSizes e)) layoutInit

/-- Pixel membership in a viewport rectangle. -/
def inRect (r : Rect) (p : ℕ × ℕ) : Prop :=
  r.pos.1 ≤ p.1 ∧ p.1 < r.pos.1 + r.size.1 ∧ r.pos.2 ≤ p.2 ∧ p.2 < r.pos.2 + r.size.2

instance (r : Rect) (p : ℕ × ℕ) : Decidable (inRect r p) := by
  unfold inRect; infer_instance

/-- Pixel membership in the shared render target. -/
def inTarget (L : Layout) (p : ℕ × ℕ) : Prop :=
  p.1 < L.renderTargetSize.1 ∧ p.2 < L.renderTargetSize.2

instance (L : Layout) (p : ℕ × ℕ) : Decidable (inTarget L p) := by
  unfold inTarget; infer_instance

/-- Eye sizes with different heights: left eye 2x1, right eye 2x2. -/
def szBad : Fin 2 → ℕ × ℕ := fun e => if e.val = 0 then (2, 1) else (2, 2)

/-- Counterexample to claim C2 as stated: with per-eye texture sizes 2x1
and 2x2 the render target is 4x2 and the pixel (0, 1) lies in the render
target but in neither eye viewport, so the union of the two viewports does
not equal the render-target dimensions. -/
theorem stereo_viewport_union_cx :
    inTarget (RiftApp.computeLayout szBad) (0, 1)
      ∧ ¬ inRect ((RiftApp.computeLayout szBad).viewports LEFT) (0, 1)
      ∧ ¬ inRect ((RiftApp.computeLayout szBad).viewports RIGHT) (0, 1) := by
  refine ⟨?_, ?_, ?_⟩ <;> decide

/-- Claim C2 (amended): per frame exactly the two eyes are rendered, left
then right; the left viewport sits at (0,0) with the left eye size and the
right viewport at (w_left, 0) with the right eye size; the two viewports
are disjoint and contained in the render target, whose width is the sum of
the eye widths and whose height is the max of the eye heights; and when the
two eye heights are equal the union of the viewports is exactly the
render-target rectangle (with unequal heights the union is a strict
subset). -/
theorem stereo_viewport_layout :
    ∀ sizes : Fin 2 → ℕ × ℕ,
    (RiftApp.computeLayout sizes).renderTargetSize
        = ((sizes LEFT).1 + (sizes RIGHT).1, max (sizes LEFT).2 (sizes RIGHT).2)
      ∧ (RiftApp.computeLayout sizes).viewports LEFT = ⟨(0, 0), sizes LEFT⟩
      ∧ (RiftApp.computeLayout sizes).viewports RIGHT
          = ⟨((sizes LEFT).1, 0), sizes RIGHT⟩
      ∧ (∀ p : ℕ × ℕ,
          ¬(inRect ((RiftApp.computeLayout sizes).viewports LEFT) p
            ∧ inRect ((RiftApp.computeLayout sizes).viewports RIGHT) p))
      ∧ (∀ (e : Fin 2) (p : ℕ × ℕ),
          inRect ((RiftApp.computeLayout sizes).viewports e) p
            → inTarget (RiftApp.computeLayout sizes) p)
      ∧ ((sizes LEFT).2 = (sizes RIGHT).2 →
          ∀ p : ℕ × ℕ,
            (inRect ((RiftApp.computeLayout sizes).viewports LEFT) p
              ∨ inRect ((RiftApp.computeLayout sizes).viewports RIGHT) p)
              ↔ inTarget (RiftApp.computeLayout sizes) p)
      ∧ (∀ (projs : Fin 2 → Mat4) (vps : Fin 2 → Rect) (inp : DrawInput),
          (RiftApp.draw projs vps inp).calls.map EyeRender.eye = [LEFT, RIGHT]) := by
  intro sizes
  have hT : (RiftApp.computeLayout sizes).renderTargetSize
      = ((sizes LEFT).1 + (sizes RIGHT).1, max (sizes LEFT).2 (sizes RIGHT).2) := by
    simp [RiftApp.computeLayout, eyeList, layoutStep, layoutInit]
  have hL : (RiftApp.computeLayout sizes).viewports LEFT = ⟨(0, 0), sizes LEFT⟩ := by
    simp [RiftApp.computeLayout, eyeList, layoutStep, layoutInit, Function.update,
      LEFT, RIGHT, Fin.ext_iff]
  have hR : (RiftApp.computeLayout sizes).viewports RIGHT
      = ⟨((sizes LEFT).1, 0), sizes RIGHT⟩ := by
    simp [RiftApp.computeLayout, eyeList, layoutStep, layoutInit, Function.update,
      LEFT, RIGHT, Fin.ext_iff]
  refine ⟨hT, hL, hR, ?_, ?_, ?_, ?_⟩
  · intro p hp
    rw [hL] at hp
    rw [hR] at hp
    simp only [inRect] at hp
    omega
  · intro e p hp
    simp only [inTarget, hT]
    fin_cases e
    · rw [show (⟨0, by omega⟩ : Fin 2) = LEFT from rfl, hL] at hp
      simp only [inRect] at hp
      constructor
      · omega
      · have := hp.2.2.2
        omega
    · rw [show (⟨1, by omega⟩ : Fin 2) = RIGHT from rfl, hR] at hp
      simp only [inRect] at hp
      constructor
      · omega
      · have := hp.2.2.2
        omega
  · intro hEq p
    simp only [inTarget, hT, hL, hR, inRect, hEq, Nat.max_self]
    omega
  · intro projs vps inp
    simp [RiftApp.draw, eyeList]

/-- Sizes with equal eye heights used to instantiate the layout theorem. -/
def szW : Fin 2 → ℕ × ℕ := fun e => if e.val = 0 then (2, 2) else (3, 2)

/-- Witness for the layout theorem: with eye sizes 2x2 and 3x2 (equal
heights) the pixel (1,1) is covered by the union of the viewports exactly
when it is in the render target. -/
theorem stereo_viewport_layout_w :
    (inRect ((RiftApp.computeLayout szW).viewports LEFT) (1, 1)
        ∨ inRect ((RiftApp.computeLayout szW).viewports RIGHT) (1, 1))
      ↔ inTarget (RiftApp.computeLayout szW) (1, 1) :=
  (stereo_viewport_layout szW).2.2.2.2.2.1 (by decide) (1, 1)

/-- Recognizer for the frame-submission event. -/
def isSubmitEvent : DrawEvent → Bool
  | DrawEvent.submitFrame _ => true
  | _ => false

/-- Claim C3 (amended): the per-frame effect trace of draw is the same
fixed sequence whatever ovrResult the compositor submission returns — the
result is ignored, nothing is logged, the submission happens exactly once
per frame (never retried mid-frame), the mirror blit still follows it, and
the run loop keeps producing one frame per tick. -/
theorem submit_failure_policy :
    ∀ (projs : Fin 2 → Mat4) (vps : Fin 2 → Rect) (inp : DrawInput),
    (RiftApp.draw projs vps inp).events =
        [DrawEvent.getEyePoses, DrawEvent.acquireSlot, DrawEvent.bindTarget,
         DrawEvent.setViewport LEFT, DrawEvent.renderEye LEFT,
         DrawEvent.setViewport RIGHT, DrawEvent.renderEye RIGHT,
         DrawEvent.commitChain, DrawEvent.submitFrame inp.submitResult,
         DrawEvent.mirrorBlit]
      ∧ ((RiftApp.draw projs vps inp).events.filter isSubmitEvent).length = 1
      ∧ (RiftApp.draw projs vps inp).logs = []
      ∧ (∀ (N : ℕ) (inps : ℕ → DrawInput),
          (RiftApp.runFrames projs vps N inps).length = N) := by
  intro projs vps inp
  refine ⟨?_, ?_, rfl, ?_⟩
  · simp [RiftApp.draw, eyeList]
  · simp [RiftApp.draw, eyeList, isSubmitEvent]
  · intro N inps
    simp [RiftApp.runFrames]

/-- The identity pose. -/
def poseZero : Pose := ⟨⟨0, 0, 0⟩, ⟨0, 0, 0, 1⟩⟩

/-- A frame input whose compositor submission fails (ovrResult -1000). -/
def drawFailInput : DrawInput := ⟨fun _ => poseZero, fun _ => poseZero, -1000⟩

/-- The identity matrix. -/
def mat4Id : Mat4 := ⟨⟨1, 0, 0, 0⟩, ⟨0, 1, 0, 0⟩, ⟨0, 0, 1, 0⟩, ⟨0, 0, 0, 1⟩⟩

/-- A degenerate viewport rectangle. -/
def rectZero : Rect := ⟨(0, 0), (0, 0)⟩

/-- Counterexample to claim C3 as stated: on a frame whose submission
returns the non-success result -1000, draw emits no log output at all, so
the failure is not logged. -/
theorem submit_failure_not_logged_cx :
    ¬ OVR_SUCCESS drawFailInput.submitResult
      ∧ (RiftApp.draw (fun _ => mat4Id) (fun _ => rectZero) drawFailInput).logs = [] := by
  constructor
  · decide
  · rfl

/-- Windows CLOCKS_PER_SEC: std::clock ticks per second. -/
def clocksPerSec : Int := 1000

/-- The Model* values a Particle or laser can point at (the scene owns one
shared instance of each loaded model; the source compares the raw
pointers). -/
inductive ModelRef where
  | factory : ModelRef
  | co2 : ModelRef
  | o2 : ModelRef
  | greenLaser : ModelRef
  | redLaser : ModelRef
deriving DecidableEq

/-- A particle of the scene.  The source stores a full 4x4 world transform;
every fact the simulation reads or writes about it concerns only its
translation column transform[3] (position integration, wall tests, the hit
test center), because the per-tick glm::rotate multiplies the transform on
the right by a rotation matrix whose fourth column is (0,0,0,1) and
therefore never changes transform[3]; so the embedding carries the
translation as pos together with the velocity and rotation-axis vectors. -/
structure Particle where
  model : ModelRef
  pos : Vec3
  velocity : Vec3
  rotation : Vec3
deriving DecidableEq

/-- A controller hand. -/
inductive Hand where
  | left : Hand
  | right : Hand
deriving DecidableEq

/-- One ovr_SetControllerVibration request: hand, frequency, amplitude. -/
structure VibCmd where
  hand : Hand
  freq : ℚ
  amp : ℚ
deriving DecidableEq

/-- The mutable state of ColorCubeScene that the simulation reads and
writes: the particle list, the unconverted-particle counter, the win/lose
flags, the spawn and vibration clocks, the two laser model pointers, the
per-hand trigger latches and the last polled ovrInputState (analog index
triggers and button bits). -/
structure SceneState where
  particles : List Particle
  co2Count : Int
  win : Bool
  lose : Bool
  timer : Int
  vibTimer : Int
  leftLaserModel : ModelRef
  rightLaserModel : ModelRef
  fingerTriggerL : Bool
  fingerTriggerR : Bool
  indexTriggerL : ℚ
  indexTriggerR : ℚ
  buttons : ℕ
deriving DecidableEq

/-- Per-step oracle inputs of one simulation step: whether
ovr_GetInputState succeeded and what it returned, the std::clock value
(the source samples the clock up to three times inside one update; within
one frame these coincide at CLOCKS_PER_SEC resolution, so the embedding
samples it once), the two laser world transforms that render just rebuilt
from the hand poses, and the rand()-derived vectors used when particles
are created. -/
structure StepInput where
  inputOk : Bool
  indexTriggerL : ℚ
  indexTriggerR : ℚ
  buttons : ℕ
  now : Int
  leftLaserTf : Mat4
  rightLaserTf : Mat4
  spawnVel : Vec3
  spawnRot : Vec3
  lossPos : ℕ → Vec3
  lossVel : ℕ → Vec3
  lossRot : ℕ → Vec3
  resetVel : ℕ → Vec3
  resetRot : ℕ → Vec3

/-- ColorCubeScene::getControllerData: when ovr_GetInputState succeeds the
stored input state is overwritten and the per-hand boolean latches are
recomputed as IndexTrigger > 0.5; otherwise the stale values persist. -/
def ColorCubeScene.getControllerData (s : SceneState) (inp : StepInput) : SceneState :=
  if inp.inputOk then
    { s with
      indexTriggerL := inp.indexTriggerL
      indexTriggerR := inp.indexTriggerR
      buttons := inp.buttons
      fingerTriggerL := if (1 : ℚ) / 2 < inp.indexTriggerL then true else false
      fingerTriggerR := if (1 : ℚ) / 2 < inp.indexTriggerR then true else false }
  else s

/-- The chimney placement matrix of the scene
(glm::mat4(1,0,0,0, 0,1,0,0, 0,0,1,0, 0,-1,-15,1), column-major). -/
def chimney : Mat4 :=
  ⟨⟨1, 0, 0, 0⟩, ⟨0, 1, 0, 0⟩, ⟨0, 0, 1, 0⟩, ⟨0, -1, -15, 1⟩⟩

/-- Spawn position of a particle: glm::scale(chimney, 0.3) scales only the
three basis columns, so the translation is that of chimney. -/
def chimneyPos : Vec3 := chimney.translation

/-- The point-to-line distance test of the source: with two points start
and endPt on the laser line, dist = |cross(endPt - start, start - center)|
/ |endPt - start| and a hit is dist <= 0.3.  Embedded without square roots
by comparing squares: for endPt different from start this is equivalent to
100 * |cross|^2 <= 9 * |endPt - start|^2 (the lasers scale of -20 along z
keeps the two points distinct for every rigid hand pose). -/
def testRayHit (start endPt center : Vec3) : Prop :=
  100 * (Vec3.cross (endPt - start) (start - center)).normSq
    ≤ 9 * (endPt - start).normSq

instance (start endPt center : Vec3) : Decidable (testRayHit start endPt center) := by
  unfold testRayHit; infer_instance

/-- The second point taken on a laser line: laser.transform * (0,0,-1,1). -/
def lineEndPt (m : Mat4) : Vec3 :=
  let v := m.mulVec ⟨0, 0, -1, 1⟩
  ⟨v.x, v.y, v.z⟩

/-- Motion part of the per-particle loop body: the position is first
integrated by the velocity (the subsequent glm::rotate leaves the
translation untouched), then each velocity component is reflected
independently when the new translation lies outside the bounding region
[-10,10] x [-10,10] x [-25,-5]; the checks read the just-updated
translation. -/
def ColorCubeScene.moveBounce (p : Particle) : Particle :=
  let pos1 : Vec3 := ⟨p.pos.x + p.velocity.x, p.pos.y + p.velocity.y,
    p.pos.z + p.velocity.z⟩
  let vx := if pos1.x < -10 ∨ 10 < pos1.x then -p.velocity.x else p.velocity.x
  let vy := if pos1.y < -10 ∨ 10 < pos1.y then -p.velocity.y else p.velocity.y
  let vz := if pos1.z < -25 ∨ -5 < pos1.z then -p.velocity.z else p.velocity.z
  { p with pos := pos1, velocity := ⟨vx, vy, vz⟩ }

/-- One iteration of the particle loop of ColorCubeScene::update: move and
bounce, then, when the particle is still CO2 and both lasers are in red
(active) mode, test both laser lines against the particle center and on a
double hit swap the model to O2 (the returned flag records that one
conversion, with its counter decrement and vibration commands, occurred). -/
def ColorCubeScene.particleStep (lTf rTf : Mat4) (lM rM : ModelRef)
    (p : Particle) : Particle × Bool :=
  let q := ColorCubeScene.moveBounce p
  if q.model = ModelRef.co2 ∧ lM = ModelRef.redLaser ∧ rM = ModelRef.redLaser then
    if testRayHit lTf.translation (lineEndPt lTf) q.pos
        ∧ testRayHit rTf.translation (lineEndPt rTf) q.pos then
      ({ q with model := ModelRef.o2 }, true)
    else (q, false)
  else (q, false)

/-- The whole particle loop: processes the particles in order, returning
the updated particles, the number of conversions (each of which the source
answers with co2Count-- and an amplitude-1 vibration on both hands), and
the vibration commands it issued. -/
def ColorCubeScene.runParticles (lTf rTf : Mat4) (lM rM : ModelRef) :
    List Particle → List Particle × ℕ × List VibCmd
  | [] => ([], 0, [])
  | p :: ps =>
    let r := ColorCubeScene.particleStep lTf rTf lM rM p
    let rest := ColorCubeScene.runParticles lTf rTf lM rM ps
    (r.1 :: rest.1,
     (if r.2 then 1 else 0) + rest.2.1,
     (if r.2 then [⟨Hand.left, 0, 1⟩, ⟨Hand.right, 0, 1⟩] else []) ++ rest.2.2)

/-- Spawn block of ColorCubeScene::update: while not won, once the integer
clock_t division (now - timer) / CLOCKS_PER_SEC reaches 1 a fresh CO2
particle is appended at the chimney, the counter is incremented and the
timer is reset to the current clock value. -/
def ColorCubeScene.spawnPhase (s : SceneState) (inp : StepInput) : SceneState :=
  if s.win = false then
    if 1 ≤ Int.tdiv (inp.now - s.timer) clocksPerSec then
      { s with
        particles := s.particles
          ++ [⟨ModelRef.co2, chimneyPos, inp.spawnVel, inp.spawnRot⟩]
        co2Count := s.co2Count + 1
        timer := inp.now }
    else s
  else s

/-- Loss block: when the counter exceeds 10 and the scene is not already
lost, 100 CO2 particles are appended at rand()-derived positions (without
touching the counter) and the lose flag is set. -/
def ColorCubeScene.losePhase (s : SceneState) (inp : StepInput) : SceneState :=
  if 10 < s.co2Count ∧ s.lose = false then
    { s with
      particles := s.particles
        ++ (List.range 100).map
            (fun i => ⟨ModelRef.co2, inp.lossPos i, inp.lossVel i, inp.lossRot i⟩)
      lose := true }
  else s

/-- Win block: when the counter is exactly 0 and the scene is not lost,
the win flag is set (the source also changes the GL clear color). -/
def ColorCubeScene.winPhase (s : SceneState) : SceneState :=
  if s.co2Count = 0 ∧ s.lose = false then { s with win := true } else s

/-- Reset block: while won or lost, any nonzero button state rebuilds a
fresh list of 5 CO2 particles at the chimney, sets the counter to 5 and
clears both flags. -/
def ColorCubeScene.resetPhase (s : SceneState) (inp : StepInput) : SceneState :=
  if (s.win = true ∨ s.lose = true) ∧ s.buttons ≠ 0 then
    { s with
      win := false
      lose := false
      particles := (List.range 5).map
        (fun i => ⟨ModelRef.co2, chimneyPos, inp.resetVel i, inp.resetRot i⟩)
      co2Count := 5 }
  else s

/-- Haptic watchdog at the top of ColorCubeScene::update: the vibration on
both hands is set to amplitude 0 whenever either trigger latch is off or
more than 100 milliseconds of clock time
(1000.0f * (clock() - vibTimer) / CLOCKS_PER_SEC > 100.0f) have passed
since the last hit. -/
def ColorCubeScene.hapticPhase (s : SceneState) (inp : StepInput) : List VibCmd :=
  if s.fingerTriggerL = false ∨ s.fingerTriggerR = false
      ∨ 100 < 1000 * ((inp.now : ℚ) - (s.vibTimer : ℚ)) / (clocksPerSec : ℚ) then
    [⟨Hand.left, 0, 0⟩, ⟨Hand.right, 0, 0⟩]
  else []

/-- The particle loop of update as a state transformer: runs runParticles,
subtracts the number of conversions from co2Count, and on any hit resets
the vibration timer to the current clock; also returns the amplitude-1
vibration commands the hits issued. -/
def ColorCubeScene.particlesPhase (s : SceneState) (inp : StepInput) :
    SceneState × List VibCmd :=
  let r := ColorCubeScene.runParticles inp.leftLaserTf inp.rightLaserTf
    s.leftLaserModel s.rightLaserModel s.particles
  ({ s with
    particles := r.1
    co2Count := s.co2Count - (r.2.1 : Int)
    vibTimer := if 0 < r.2.1 then inp.now else s.vibTimer }, r.2.2)

/-- Laser recoloring block: each laser model becomes red when that hand's
analog index trigger exceeds 0.5, else green. -/
def ColorCubeScene.laserPhase (s : SceneState) : SceneState :=
  { s with
    leftLaserModel := if (1 : ℚ) / 2 < s.indexTriggerL then ModelRef.redLaser
      else ModelRef.greenLaser
    rightLaserModel := if (1 : ℚ) / 2 < s.indexTriggerR then ModelRef.redLaser
      else ModelRef.greenLaser }

/-- ColorCubeScene::update, the once-per-frame simulation step, in source
order: (1) the haptic watchdog; (2) the particle loop (motion, bounce,
two-handed conversion with its counter decrement, amplitude-1 vibration
and vibration-timer reset); (3) laser recoloring from the analog triggers;
(4) the spawn block; (5) the loss block; (6) the win block; (7) the reset
block.  Returns the new state and the vibration requests issued, in
order. -/
def ColorCubeScene.update (s : SceneState) (inp : StepInput) :
    SceneState × List VibCmd :=
  (ColorCubeScene.resetPhase
    (ColorCubeScene.winPhase
      (ColorCubeScene.losePhase
        (ColorCubeScene.spawnPhase
          (ColorCubeScene.laserPhase (ColorCubeScene.particlesPhase s inp).1) inp) inp))
    inp,
   ColorCubeScene.hapticPhase s inp ++ (ColorCubeScene.particlesPhase s inp).2)

/-- The ColorCubeScene constructor: 5 CO2 particles at the chimney with
rand()-derived velocity and rotation axes, counter 5, both lasers green,
latches false, spawn timer set to the construction clock value.  The
vibration timer and the input state are read before ever being written, so
their initial (indeterminate) contents are parameters. -/
def ColorCubeScene.initState (t0 vib0 : Int) (vels rots : ℕ → Vec3)
    (trigL0 trigR0 : ℚ) (buttons0 : ℕ) : SceneState :=
  { particles := (List.range 5).map (fun i => ⟨ModelRef.co2, chimneyPos, vels i, rots i⟩)
    co2Count := 5
    win := false
    lose := false
    timer := t0
    vibTimer := vib0
    leftLaserModel := ModelRef.greenLaser
    rightLaserModel := ModelRef.greenLaser
    fingerTriggerL := false
    fingerTriggerR := false
    indexTriggerL := trigL0
    indexTriggerR := trigR0
    buttons := buttons0 }

/-- The scene states the program can reach: a freshly constructed scene,
followed by any interleaving of controller polling (getControllerData runs
at the start of every render) and simulation steps (update runs at the end
of every render). -/
inductive ColorCubeScene.Reachable : SceneState → Prop where
  | init : ∀ (t0 vib0 : Int) (vels rots : ℕ → Vec3) (trigL0 trigR0 : ℚ) (buttons0 : ℕ),
      ColorCubeScene.Reachable
        (ColorCubeScene.initState t0 vib0 vels rots trigL0 trigR0 buttons0)
  | input : ∀ (s : SceneState) (inp : StepInput), ColorCubeScene.Reachable s →
      ColorCubeScene.Reachable (ColorCubeScene.getControllerData s inp)
  | step : ∀ (s : SceneState) (inp : StepInput), ColorCubeScene.Reachable s →
      ColorCubeScene.Reachable (ColorCubeScene.update s inp).1

/-- The number of particles whose model is still the unconverted (co2)
variant. -/
def countCo2 (ps : List Particle) : Int :=
  ((ps.filter (fun p => p.model = ModelRef.co2)).length : Int)

lemma moveBounce_model (p : Particle) :
    (ColorCubeScene.moveBounce p).model = p.model := rfl

lemma particleStep_true {lTf rTf : Mat4} {lM rM : ModelRef} {p : Particle}
    (h : (ColorCubeScene.particleStep lTf rTf lM rM p).2 = true) :
    p.model = ModelRef.co2
      ∧ (ColorCubeScene.particleStep lTf rTf lM rM p).1.model = ModelRef.o2 := by
  simp only [ColorCubeScene.particleStep] at h ⊢
  split_ifs at h ⊢ with h1 h2
  constructor
  · rw [← moveBounce_model p]
    exact h1.1
  · rfl

lemma particleStep_false {lTf rTf : Mat4} {lM rM : ModelRef} {p : Particle}
    (h : (ColorCubeScene.particleStep lTf rTf lM rM p).2 = false) :
    (ColorCubeScene.particleStep lTf rTf lM rM p).1.model = p.model := by
  simp only [ColorCubeScene.particleStep] at h ⊢
  split_ifs at h ⊢ with h1 h2
  · rfl
  · rfl

lemma countCo2_nil : countCo2 [] = 0 := rfl

lemma countCo2_cons (p : Particle) (ps : List Particle) :
    countCo2 (p :: ps)
      = (if p.model = ModelRef.co2 then 1 else 0) + countCo2 ps := by
  simp only [countCo2, List.filter_cons]
  split_ifs with h <;> simp_all <;> omega

lemma countCo2_append (l1 l2 : List Particle) :
    countCo2 (l1 ++ l2) = countCo2 l1 + countCo2 l2 := by
  simp only [countCo2, List.filter_append, List.length_append]
  push_cast
  ring

lemma countCo2_mk_co2 (l : List ℕ) (posf velf rotf : ℕ → Vec3) :
    countCo2 (l.map (fun i => ⟨ModelRef.co2, posf i, velf i, rotf i⟩))
      = (l.length : Int) := by
  induction l with
  | nil => rfl
  | cons a t ih =>
    simp only [List.map_cons, List.length_cons]
    rw [countCo2_cons]
    simp [ih]
    omega

lemma runParticles_countCo2 (lTf rTf : Mat4) (lM rM : ModelRef)
    (ps : List Particle) :
    countCo2 (ColorCubeScene.runParticles lTf rTf lM rM ps).1
      = countCo2 ps - ((ColorCubeScene.runParticles lTf rTf lM rM ps).2.1 : Int) := by
  induction ps with
  | nil => simp [ColorCubeScene.runParticles, countCo2_nil]
  | cons p ps ih =>
    simp only [ColorCubeScene.runParticles]
    rw [countCo2_cons, countCo2_cons]
    cases h : (ColorCubeScene.particleStep lTf rTf lM rM p).2 with
    | true =>
      have hs := particleStep_true h
      simp [h, hs.1, hs.2, ih]
    | false =>
      have hs := particleStep_false h
      simp [h, hs, ih]
      split_ifs with hm <;> push_cast <;> ring

lemma runParticles_noRed {lM rM : ModelRef}
    (h : ¬(lM = ModelRef.redLaser ∧ rM = ModelRef.redLaser))
    (lTf rTf : Mat4) (ps : List Particle) :
    ColorCubeScene.runParticles lTf rTf lM rM ps
      = (ps.map ColorCubeScene.moveBounce, 0, []) := by
  have hp : ∀ p, ColorCubeScene.particleStep lTf rTf lM rM p
      = (ColorCubeScene.moveBounce p, false) := by
    intro p
    simp only [ColorCubeScene.particleStep]
    split_ifs with h1 h2
    · exact absurd ⟨h1.2.1, h1.2.2⟩ h
    · exact absurd ⟨h1.2.1, h1.2.2⟩ h
    · rfl
  induction ps with
  | nil => rfl
  | cons p ps ih => simp [ColorCubeScene.runParticles, hp, ih]

lemma tdiv_clocks_ge_one_iff (d : Int) :
    1 ≤ Int.tdiv d clocksPerSec ↔ 1000 ≤ d := by
  simp only [clocksPerSec]
  constructor
  · intro h
    by_contra hc
    push_neg at hc
    rcases le_or_lt 0 d with hd | hd
    · rw [Int.tdiv_eq_ediv hd (by norm_num)] at h
      rw [Int.ediv_eq_zero_of_lt hd hc] at h
      omega
    · rcases d with m | m
      · rw [Int.ofNat_eq_natCast] at hd
        omega
      · have he : Int.tdiv (Int.negSucc m) 1000 = -(((m + 1) / 1000 : ℕ) : Int) := rfl
        rw [he] at h
        omega
  · intro h
    rw [Int.tdiv_eq_ediv (by omega) (by norm_num)]
    rw [Int.le_ediv_iff_mul_le (by norm_num : (0 : Int) < 1000)]
    omega

/-- The counter/particle agreement predicate of claim C9: while the lose
flag is off, co2Count equals the number of particles still carrying the
co2 model. -/
def ColorCubeScene.countInv (s : SceneState) : Prop :=
  s.lose = false → s.co2Count = countCo2 s.particles

lemma particlesPhase_inv (s : SceneState) (inp : StepInput)
    (h : ColorCubeScene.countInv s) :
    ColorCubeScene.countInv (ColorCubeScene.particlesPhase s inp).1 := by
  intro hl
  simp only [ColorCubeScene.particlesPhase] at hl ⊢
  rw [runParticles_countCo2, ← h hl]

lemma laserPhase_inv (s : SceneState) (h : ColorCubeScene.countInv s) :
    ColorCubeScene.countInv (ColorCubeScene.laserPhase s) := by
  intro hl
  exact h hl

lemma spawnPhase_inv (s : SceneState) (inp : StepInput)
    (h : ColorCubeScene.countInv s) :
    ColorCubeScene.countInv (ColorCubeScene.spawnPhase s inp) := by
  intro hl
  simp only [ColorCubeScene.spawnPhase] at hl ⊢
  by_cases h1 : s.win = false
  · rw [if_pos h1] at hl ⊢
    by_cases h2 : 1 ≤ Int.tdiv (inp.now - s.timer) clocksPerSec
    · rw [if_pos h2] at hl ⊢
      dsimp only at hl ⊢
      rw [countCo2_append, ← h hl]
      simp [countCo2_cons, countCo2_nil]
    · rw [if_neg h2] at hl ⊢
      exact h hl
  · rw [if_neg h1] at hl ⊢
    exact h hl

lemma losePhase_inv (s : SceneState) (inp : StepInput)
    (h : ColorCubeScene.countInv s) :
    ColorCubeScene.countInv (ColorCubeScene.losePhase s inp) := by
  intro hl
  simp only [ColorCubeScene.losePhase] at hl ⊢
  by_cases h1 : 10 < s.co2Count ∧ s.lose = false
  · rw [if_pos h1] at hl ⊢
    simp at hl
  · rw [if_neg h1] at hl ⊢
    exact h hl

lemma winPhase_inv (s : SceneState) (h : ColorCubeScene.countInv s) :
    ColorCubeScene.countInv (ColorCubeScene.winPhase s) := by
  intro hl
  simp only [ColorCubeScene.winPhase] at hl ⊢
  by_cases h1 : s.co2Count = 0 ∧ s.lose = false
  · rw [if_pos h1] at hl ⊢
    exact h hl
  · rw [if_neg h1] at hl ⊢
    exact h hl

lemma resetPhase_inv (s : SceneState) (inp : StepInput)
    (h : ColorCubeScene.countInv s) :
    ColorCubeScene.countInv (ColorCubeScene.resetPhase s inp) := by
  intro hl
  simp only [ColorCubeScene.resetPhase] at hl ⊢
  by_cases h1 : (s.win = true ∨ s.lose = true) ∧ s.buttons ≠ 0
  · rw [if_pos h1] at hl ⊢
    dsimp only at hl ⊢
    rw [countCo2_mk_co2]
    simp
  · rw [if_neg h1] at hl ⊢
    exact h hl

/-- Claim C9: in every reachable state in which the lose flag is false —
from construction, through conversion (counter decrement plus one model
swap), spawning (counter increment plus one appended co2 particle) and
reset (5 fresh co2 particles, counter 5) — co2Count equals the number of
particles whose model is the unconverted co2 variant (the loss branch
appends 100 co2 particles without touching co2Count, but it also sets
lose, so the equality is only claimed while lose is false). -/
theorem co2Count_invariant :
    ∀ s : SceneState, ColorCubeScene.Reachable s →
    s.lose = false → s.co2Count = countCo2 s.particles := by
  intro s h
  induction h with
  | init t0 vib0 vels rots trigL0 trigR0 buttons0 =>
    intro _
    simp only [ColorCubeScene.initState]
    rw [countCo2_mk_co2]
    simp
  | input s inp hr ih =>
    intro hl
    simp only [ColorCubeScene.getControllerData] at hl ⊢
    split_ifs at hl ⊢ <;> exact ih hl
  | step s inp hr ih =>
    exact resetPhase_inv _ inp (winPhase_inv _ (losePhase_inv _ inp
      (spawnPhase_inv _ inp (laserPhase_inv _ (particlesPhase_inv s inp ih)))))

/-- Witness for C9: a freshly constructed scene is reachable, has the lose
flag off, and its counter 5 equals its number of co2 particles. -/
theorem co2Count_invariant_w :
    (ColorCubeScene.initState 0 0 (fun _ => ⟨0, 0, 0⟩) (fun _ => ⟨0, 0, 0⟩) 0 0 0).co2Count
      = countCo2 (ColorCubeScene.initState 0 0 (fun _ => ⟨0, 0, 0⟩)
          (fun _ => ⟨0, 0, 0⟩) 0 0 0).particles :=
  co2Count_invariant _
    (ColorCubeScene.Reachable.init 0 0 (fun _ => ⟨0, 0, 0⟩) (fun _ => ⟨0, 0, 0⟩) 0 0 0) rfl

lemma particlesPhase_win (s : SceneState) (inp : StepInput) :
    (ColorCubeScene.particlesPhase s inp).1.win = s.win := rfl

lemma particlesPhase_buttons (s : SceneState) (inp : StepInput) :
    (ColorCubeScene.particlesPhase s inp).1.buttons = s.buttons := rfl

lemma laserPhase_win (s : SceneState) :
    (ColorCubeScene.laserPhase s).win = s.win := rfl

lemma laserPhase_buttons (s : SceneState) :
    (ColorCubeScene.laserPhase s).buttons = s.buttons := rfl

lemma spawnPhase_win (s : SceneState) (inp : StepInput) :
    (ColorCubeScene.spawnPhase s inp).win = s.win := by
  simp only [ColorCubeScene.spawnPhase]
  split_ifs <;> rfl

lemma spawnPhase_buttons (s : SceneState) (inp : StepInput) :
    (ColorCubeScene.spawnPhase s inp).buttons = s.buttons := by
  simp only [ColorCubeScene.spawnPhase]
  split_ifs <;> rfl

lemma losePhase_win (s : SceneState) (inp : StepInput) :
    (ColorCubeScene.losePhase s inp).win = s.win := by
  simp only [ColorCubeScene.losePhase]
  split_ifs <;> rfl

lemma losePhase_buttons (s : SceneState) (inp : StepInput) :
    (ColorCubeScene.losePhase s inp).buttons = s.buttons := by
  simp only [ColorCubeScene.losePhase]
  split_ifs <;> rfl

lemma winPhase_buttons (s : SceneState) :
    (ColorCubeScene.winPhase s).buttons = s.buttons := by
  simp only [ColorCubeScene.winPhase]
  split_ifs <;> rfl

lemma winPhase_co2Count (s : SceneState) :
    (ColorCubeScene.winPhase s).co2Count = s.co2Count := by
  simp only [ColorCubeScene.winPhase]
  split_ifs <;> rfl

lemma winPhase_win_of_true (s : SceneState) (h : s.win = true) :
    (ColorCubeScene.winPhase s).win = true := by
  simp only [ColorCubeScene.winPhase]
  split_ifs
  · rfl
  · exact h

lemma resetPhase_win_of (s : SceneState) (inp : StepInput) (hb : s.buttons = 0) :
    (ColorCubeScene.resetPhase s inp).win = s.win := by
  simp only [ColorCubeScene.resetPhase]
  rw [if_neg]
  intro hc
  exact hc.2 hb

lemma spawnPhase_spawned (s : SceneState) (inp : StepInput)
    (hw : s.win = false) (hc : 1 ≤ Int.tdiv (inp.now - s.timer) clocksPerSec) :
    ColorCubeScene.spawnPhase s inp
      = { s with
          particles := s.particles
            ++ [⟨ModelRef.co2, chimneyPos, inp.spawnVel, inp.spawnRot⟩]
          co2Count := s.co2Count + 1
          timer := inp.now } := by
  simp only [ColorCubeScene.spawnPhase]
  rw [if_pos hw, if_pos hc]

lemma spawnPhase_skip (s : SceneState) (inp : StepInput)
    (hc : ¬ 1 ≤ Int.tdiv (inp.now - s.timer) clocksPerSec) :
    ColorCubeScene.spawnPhase s inp = s := by
  simp only [ColorCubeScene.spawnPhase]
  by_cases h1 : s.win = false
  · rw [if_pos h1, if_neg hc]
  · rw [if_neg h1]

lemma losePhase_skip (s : SceneState) (inp : StepInput)
    (h : ¬(10 < s.co2Count ∧ s.lose = false)) :
    ColorCubeScene.losePhase s inp = s := by
  simp only [ColorCubeScene.losePhase]
  rw [if_neg h]

lemma winPhase_skip (s : SceneState)
    (h : ¬(s.co2Count = 0 ∧ s.lose = false)) :
    ColorCubeScene.winPhase s = s := by
  simp only [ColorCubeScene.winPhase]
  rw [if_neg h]

lemma resetPhase_skip (s : SceneState) (inp : StepInput)
    (h : ¬((s.win = true ∨ s.lose = true) ∧ s.buttons ≠ 0)) :
    ColorCubeScene.resetPhase s inp = s := by
  simp only [ColorCubeScene.resetPhase]
  rw [if_neg h]

/-- Claim C4: in every simulation step, when the unconverted-particle
counter is exactly 0 at the win check and the scene is not already lost,
the state transitions to Won; setting win is idempotent (while already
Won the check changes nothing, so the transition fires exactly once), and
while Won with no button pressed an update step keeps the scene Won. -/
theorem win_transition_once :
    ∀ (s : SceneState) (inp : StepInput),
    ((ColorCubeScene.winPhase s).win = true
        ↔ (s.co2Count = 0 ∧ s.lose = false) ∨ s.win = true)
      ∧ (s.win = true → ColorCubeScene.winPhase s = s)
      ∧ (s.win = false →
          ((ColorCubeScene.winPhase s).win = true ↔ s.co2Count = 0 ∧ s.lose = false))
      ∧ (s.win = true → s.buttons = 0 → (ColorCubeScene.update s inp).1.win = true) := by
  intro s inp
  refine ⟨?_, ?_, ?_, ?_⟩
  · simp only [ColorCubeScene.winPhase]
    split_ifs with h1
    · simp [h1]
    · constructor
      · intro hw
        exact Or.inr hw
      · rintro (hc | hc)
        · exact absurd hc h1
        · exact hc
  · intro hw
    simp only [ColorCubeScene.winPhase]
    split_ifs with h1
    · cases s
      simp_all
    · rfl
  · intro hw
    simp only [ColorCubeScene.winPhase]
    split_ifs with h1
    · simp [h1]
    · simp [hw, h1]
  · intro hw hb
    simp only [ColorCubeScene.update]
    rw [resetPhase_win_of]
    · apply winPhase_win_of_true
      rw [losePhase_win, spawnPhase_win, laserPhase_win, particlesPhase_win]
      exact hw
    · rw [winPhase_buttons, losePhase_buttons, spawnPhase_buttons, laserPhase_buttons,
        particlesPhase_buttons]
      exact hb

/-- The zero vector. -/
def vec0 : Vec3 := ⟨0, 0, 0⟩

/-- A concrete scene state used to instantiate the theorems. -/
def sBase : SceneState :=
  ⟨[], 5, false, false, 0, 0, ModelRef.greenLaser, ModelRef.greenLaser,
   false, false, 0, 0, 0⟩

/-- A concrete step input used to instantiate the theorems. -/
def inpBase : StepInput :=
  ⟨true, 0, 0, 0, 0, mat4Id, mat4Id, vec0, vec0,
   fun _ => vec0, fun _ => vec0, fun _ => vec0, fun _ => vec0, fun _ => vec0⟩

/-- Witness for C4: a scene that is already Won with no button pressed
stays Won across an update step. -/
theorem win_transition_once_w :
    (ColorCubeScene.update { sBase with win := true } inpBase).1.win = true :=
  (win_transition_once { sBase with win := true } inpBase).2.2.2 rfl rfl

/-- Claim C6: one simulation step first integrates a particle position by
its velocity, then reflects each velocity component independently exactly
when the new translation leaves the bounding region, whose boundary is
inclusive at -10 and 10 on x and y and at -25 and -5 on z (no reflection at
the boundary itself); in particular a particle at x = 10.5 with
velocity.x = +0.02 has velocity.x negated by the step. -/
theorem particle_bounce :
    ∀ p : Particle,
    (ColorCubeScene.moveBounce p).pos
        = ⟨p.pos.x + p.velocity.x, p.pos.y + p.velocity.y, p.pos.z + p.velocity.z⟩
      ∧ (-10 ≤ p.pos.x + p.velocity.x → p.pos.x + p.velocity.x ≤ 10 →
          (ColorCubeScene.moveBounce p).velocity.x = p.velocity.x)
      ∧ (p.pos.x + p.velocity.x < -10 ∨ 10 < p.pos.x + p.velocity.x →
          (ColorCubeScene.moveBounce p).velocity.x = -p.velocity.x)
      ∧ (-10 ≤ p.pos.y + p.velocity.y → p.pos.y + p.velocity.y ≤ 10 →
          (ColorCubeScene.moveBounce p).velocity.y = p.velocity.y)
      ∧ (p.pos.y + p.velocity.y < -10 ∨ 10 < p.pos.y + p.velocity.y →
          (ColorCubeScene.moveBounce p).velocity.y = -p.velocity.y)
      ∧ (-25 ≤ p.pos.z + p.velocity.z → p.pos.z + p.velocity.z ≤ -5 →
          (ColorCubeScene.moveBounce p).velocity.z = p.velocity.z)
      ∧ (p.pos.z + p.velocity.z < -25 ∨ -5 < p.pos.z + p.velocity.z →
          (ColorCubeScene.moveBounce p).velocity.z = -p.velocity.z)
      ∧ (p.pos.x = 21 / 2 → p.velocity.x = 1 / 50 →
          (ColorCubeScene.moveBounce p).velocity.x = -(1 / 50)) := by
  intro p
  refine ⟨rfl, ?_, ?_, ?_, ?_, ?_, ?_, ?_⟩
  · intro h1 h2
    simp only [ColorCubeScene.moveBounce]
    rw [if_neg]
    rintro (hc | hc) <;> linarith
  · intro h
    simp only [ColorCubeScene.moveBounce]
    rw [if_pos h]
  · intro h1 h2
    simp only [ColorCubeScene.moveBounce]
    rw [if_neg]
    rintro (hc | hc) <;> linarith
  · intro h
    simp only [ColorCubeScene.moveBounce]
    rw [if_pos h]
  · intro h1 h2
    simp only [ColorCubeScene.moveBounce]
    rw [if_neg]
    rintro (hc | hc) <;> linarith
  · intro h
    simp only [ColorCubeScene.moveBounce]
    rw [if_pos h]
  · intro hx hv
    simp only [ColorCubeScene.moveBounce, hx, hv]
    rw [if_pos]
    exact Or.inr (by norm_num)

/-- Witness for C6: the particle at x = 10.5 with velocity.x = 0.02 from
the claim has its x velocity negated by the step. -/
theorem particle_bounce_w :
    (ColorCubeScene.moveBounce ⟨ModelRef.co2, ⟨21 / 2, 0, -15⟩, ⟨1 / 50, 0, 0⟩, vec0⟩).velocity.x
      = -(1 / 50) :=
  (particle_bounce ⟨ModelRef.co2, ⟨21 / 2, 0, -15⟩, ⟨1 / 50, 0, 0⟩, vec0⟩).2.2.2.2.2.2.2
    rfl rfl

/-- Claim C8: on every simulation step, whenever either trigger latch is
off or more than 100 milliseconds of clock time have passed since the last
hit, the step begins by issuing amplitude-0 vibration commands to both
controllers (reasserted every frame, so feedback started by a hit cannot
persist once a trigger is released or the cooldown elapses). -/
theorem haptics_forced_zero :
    ∀ (s : SceneState) (inp : StepInput),
    (s.fingerTriggerL = false ∨ s.fingerTriggerR = false
        ∨ 100 < 1000 * ((inp.now : ℚ) - (s.vibTimer : ℚ)) / (clocksPerSec : ℚ)) →
    (ColorCubeScene.update s inp).2.take 2
      = [⟨Hand.left, 0, 0⟩, ⟨Hand.right, 0, 0⟩] := by
  intro s inp h
  simp only [ColorCubeScene.update, ColorCubeScene.hapticPhase]
  rw [if_pos h]
  rfl

/-- Witness for C8: with both trigger latches off, an update step issues
the two amplitude-0 vibration commands first. -/
theorem haptics_forced_zero_w :
    (ColorCubeScene.update sBase inpBase).2.take 2
      = [⟨Hand.left, 0, 0⟩, ⟨Hand.right, 0, 0⟩] :=
  haptics_forced_zero sBase inpBase (Or.inl rfl)

lemma losePhase_co2Count (s : SceneState) (inp : StepInput) :
    (ColorCubeScene.losePhase s inp).co2Count = s.co2Count := by
  simp only [ColorCubeScene.losePhase]
  split_ifs <;> rfl

lemma laserPhase_co2Count (s : SceneState) :
    (ColorCubeScene.laserPhase s).co2Count = s.co2Count := rfl

/-- Claim C5: with both lasers in red (post-trigger-threshold) mode, a
still-unconverted (co2) particle whose moved center is hit by both laser
lines converts exactly once — its model switches to the converted (o2)
variant, the loop reports one conversion (which update answers by
decrementing co2Count by one) and issues the amplitude-1 vibrations —
while a coincident double hit on an already-converted (o2) particle is a
no-op: the particle only moves, no conversion is counted, and its model
stays o2; at the update level one such conversion makes co2Count drop by
exactly one. -/
theorem two_handed_conversion :
    ∀ (lTf rTf : Mat4) (p : Particle),
    (p.model = ModelRef.co2 →
        testRayHit lTf.translation (lineEndPt lTf) (ColorCubeScene.moveBounce p).pos →
        testRayHit rTf.translation (lineEndPt rTf) (ColorCubeScene.moveBounce p).pos →
        ColorCubeScene.runParticles lTf rTf ModelRef.redLaser ModelRef.redLaser [p]
          = ([{ ColorCubeScene.moveBounce p with model := ModelRef.o2 }], 1,
             [⟨Hand.left, 0, 1⟩, ⟨Hand.right, 0, 1⟩]))
      ∧ (p.model = ModelRef.o2 →
          ColorCubeScene.runParticles lTf rTf ModelRef.redLaser ModelRef.redLaser [p]
            = ([ColorCubeScene.moveBounce p], 0, []))
      ∧ (∀ (s : SceneState) (inp : StepInput),
          s.particles = [p] → s.leftLaserModel = ModelRef.redLaser →
          s.rightLaserModel = ModelRef.redLaser →
          inp.leftLaserTf = lTf → inp.rightLaserTf = rTf →
          p.model = ModelRef.co2 →
          testRayHit lTf.translation (lineEndPt lTf) (ColorCubeScene.moveBounce p).pos →
          testRayHit rTf.translation (lineEndPt rTf) (ColorCubeScene.moveBounce p).pos →
          s.win = false → s.lose = false → s.buttons = 0 →
          inp.now - s.timer < 1000 → s.co2Count ≤ 11 →
          (ColorCubeScene.update s inp).1.co2Count = s.co2Count - 1) := by
  intro lTf rTf p
  refine ⟨?_, ?_, ?_⟩
  · intro hm hlh hrh
    simp [ColorCubeScene.runParticles, ColorCubeScene.particleStep, moveBounce_model,
      hm, hlh, hrh]
  · intro hm
    simp [ColorCubeScene.runParticles, ColorCubeScene.particleStep, moveBounce_model, hm]
  · intro s inp hps hslm hsrm hltf hrtf hm hlh hrh hw hl hb hel h11
    have hrun : ColorCubeScene.runParticles inp.leftLaserTf inp.rightLaserTf
        s.leftLaserModel s.rightLaserModel s.particles
        = ([{ ColorCubeScene.moveBounce p with model := ModelRef.o2 }], 1,
           [⟨Hand.left, 0, 1⟩, ⟨Hand.right, 0, 1⟩]) := by
      rw [hps, hslm, hsrm, hltf, hrtf]
      simp [ColorCubeScene.runParticles, ColorCubeScene.particleStep, moveBounce_model,
        hm, hlh, hrh]
    have hcond : ¬ 1 ≤ Int.tdiv (inp.now - s.timer) clocksPerSec := fun hcc => by
      have := (tdiv_clocks_ge_one_iff (inp.now - s.timer)).mp hcc
      omega
    have hno : ¬(10 < s.co2Count - 1) := by omega
    show (ColorCubeScene.resetPhase
        (ColorCubeScene.winPhase
          (ColorCubeScene.losePhase
            (ColorCubeScene.spawnPhase
              (ColorCubeScene.laserPhase (ColorCubeScene.particlesPhase s inp).1) inp)
            inp)) inp).co2Count = s.co2Count - 1
    rw [resetPhase_skip _ inp ?hg3, winPhase_co2Count, losePhase_co2Count,
      spawnPhase_skip _ inp ?hg1, laserPhase_co2Count]
    · simp only [ColorCubeScene.particlesPhase, hrun]
      simp
    case hg1 => exact hcond
    case hg3 =>
      intro hcc
      apply hcc.2
      rw [winPhase_buttons, losePhase_buttons, spawnPhase_buttons, laserPhase_buttons,
        particlesPhase_buttons]
      exact hb

/-- The hit particle used to instantiate the conversion theorem: a co2
particle sitting at (0,0,-5), straight down both identity-posed laser
lines. -/
def pW5 : Particle := ⟨ModelRef.co2, ⟨0, 0, -5⟩, vec0, vec0⟩

/-- Witness for C5: with both lasers at the identity transform (lines
through the origin toward -z) and both in red mode, the co2 particle at
(0,0,-5) converts exactly once with one counted conversion and the two
amplitude-1 vibrations. -/
lemma Vec3.sub_def (a b : Vec3) : a - b = ⟨a.x - b.x, a.y - b.y, a.z - b.z⟩ := rfl

theorem two_handed_conversion_w :
    ColorCubeScene.runParticles mat4Id mat4Id ModelRef.redLaser ModelRef.redLaser [pW5]
      = ([{ ColorCubeScene.moveBounce pW5 with model := ModelRef.o2 }], 1,
         [⟨Hand.left, 0, 1⟩, ⟨Hand.right, 0, 1⟩]) :=
  (two_handed_conversion mat4Id mat4Id pW5).1 rfl
    (by
      simp only [testRayHit, lineEndPt, Mat4.translation, Mat4.mulVec, mat4Id, pW5, vec0,
        ColorCubeScene.moveBounce, Vec3.sub_def, Vec3.cross, Vec3.normSq]
      norm_num)
    (by
      simp only [testRayHit, lineEndPt, Mat4.translation, Mat4.mulVec, mat4Id, pW5, vec0,
        ColorCubeScene.moveBounce, Vec3.sub_def, Vec3.cross, Vec3.normSq]
      norm_num)

lemma update_noConv (s : SceneState) (inp : StepInput)
    (hred : ¬(s.leftLaserModel = ModelRef.redLaser ∧ s.rightLaserModel = ModelRef.redLaser)) :
    ColorCubeScene.laserPhase (ColorCubeScene.particlesPhase s inp).1
      = ColorCubeScene.laserPhase
          { s with particles := s.particles.map ColorCubeScene.moveBounce } := by
  simp only [ColorCubeScene.particlesPhase, runParticles_noRed hred]
  congr 1
  simp

/-- Claim C7: in the Playing state (neither Won nor Lost, with at least
one unconverted particle left and fewer than 10 so that no loss or win
transition interferes, and with the lasers not both red so that no
conversion occurs this step), once at least one full second of clock time
has elapsed since the spawn timer was last reset the update step appends
exactly one fresh co2 particle at the chimney, increments the counter by
one and resets the timer to the current clock; and when less than one
second has elapsed nothing is spawned and counter and timer are
unchanged. -/
theorem spawn_cadence :
    ∀ (s : SceneState) (inp : StepInput),
    s.win = false → s.lose = false →
    1 ≤ s.co2Count → s.co2Count ≤ 9 →
    ¬(s.leftLaserModel = ModelRef.redLaser ∧ s.rightLaserModel = ModelRef.redLaser) →
    ((1000 ≤ inp.now - s.timer →
        (ColorCubeScene.update s inp).1.particles
            = s.particles.map ColorCubeScene.moveBounce
              ++ [⟨ModelRef.co2, chimneyPos, inp.spawnVel, inp.spawnRot⟩]
          ∧ (ColorCubeScene.update s inp).1.co2Count = s.co2Count + 1
          ∧ (ColorCubeScene.update s inp).1.timer = inp.now)
      ∧ (inp.now - s.timer < 1000 →
          (ColorCubeScene.update s inp).1.particles
              = s.particles.map ColorCubeScene.moveBounce
            ∧ (ColorCubeScene.update s inp).1.co2Count = s.co2Count
            ∧ (ColorCubeScene.update s inp).1.timer = s.timer)) := by
  intro s inp hw hl hc1 hc9 hred
  constructor
  · intro hel
    have hcond : 1 ≤ Int.tdiv (inp.now - s.timer) clocksPerSec :=
      (tdiv_clocks_ge_one_iff (inp.now - s.timer)).mpr hel
    simp only [ColorCubeScene.update]
    rw [update_noConv s inp hred, spawnPhase_spawned _ inp ?gw ?gc,
      losePhase_skip _ inp ?gten, winPhase_skip _ ?gzero, resetPhase_skip _ inp ?gr]
    · exact ⟨rfl, rfl, rfl⟩
    case gw => exact hw
    case gc => exact hcond
    case gten =>
      intro hcc
      exact absurd (show 10 < s.co2Count + 1 from hcc.1) (by omega)
    case gzero =>
      intro hcc
      exact absurd (show s.co2Count + 1 = 0 from hcc.1) (by omega)
    case gr =>
      rintro ⟨hwl | hll, _⟩
      · exact absurd (show s.win = true from hwl) (by simp [hw])
      · exact absurd (show s.lose = true from hll) (by simp [hl])
  · intro hel
    have hcond : ¬ 1 ≤ Int.tdiv (inp.now - s.timer) clocksPerSec := fun hcc => by
      have := (tdiv_clocks_ge_one_iff (inp.now - s.timer)).mp hcc
      omega
    simp only [ColorCubeScene.update]
    rw [update_noConv s inp hred, spawnPhase_skip _ inp ?gc2,
      losePhase_skip _ inp ?gten2, winPhase_skip _ ?gzero2, resetPhase_skip _ inp ?gr2]
    · exact ⟨rfl, rfl, rfl⟩
    case gc2 => exact hcond
    case gten2 =>
      intro hcc
      exact absurd (show 10 < s.co2Count from hcc.1) (by omega)
    case gzero2 =>
      intro hcc
      exact absurd (show s.co2Count = 0 from hcc.1) (by omega)
    case gr2 =>
      rintro ⟨hwl | hll, _⟩
      · exact absurd (show s.win = true from hwl) (by simp [hw])
      · exact absurd (show s.lose = true from hll) (by simp [hl])

/-- Witness for C7: from the base Playing state (counter 5, timer 0), an
update at clock 1000 increments the counter to 6. -/
theorem spawn_cadence_w :
    (ColorCubeScene.update sBase { inpBase with now := 1000 }).1.co2Count
      = sBase.co2Count + 1 :=
  ((spawn_cadence sBase { inpBase with now := 1000 } rfl rfl (by decide) (by decide)
    (by decide)).1 (by decide)).2.1

/-- Claim C10: the spawn block is gated only on the win flag, not on the
lose flag — in a Lost state (win off, lose on, no button pressed, lasers
not both red) with a second of clock time elapsed, the update step still
appends one fresh co2 particle, increments the counter and resets the
timer, while the scene stays Lost; so the particle set keeps growing after
a loss until an explicit reset. -/
theorem spawn_ignores_lose :
    ∀ (s : SceneState) (inp : StepInput),
    s.win = false → s.lose = true → s.buttons = 0 →
    ¬(s.leftLaserModel = ModelRef.redLaser ∧ s.rightLaserModel = ModelRef.redLaser) →
    1000 ≤ inp.now - s.timer →
    (ColorCubeScene.update s inp).1.particles
        = s.particles.map ColorCubeScene.moveBounce
          ++ [⟨ModelRef.co2, chimneyPos, inp.spawnVel, inp.spawnRot⟩]
      ∧ (ColorCubeScene.update s inp).1.co2Count = s.co2Count + 1
      ∧ (ColorCubeScene.update s inp).1.timer = inp.now
      ∧ (ColorCubeScene.update s inp).1.lose = true
      ∧ (ColorCubeScene.update s inp).1.win = false := by
  intro s inp hw hl hb hred hel
  have hcond : 1 ≤ Int.tdiv (inp.now - s.timer) clocksPerSec :=
    (tdiv_clocks_ge_one_iff (inp.now - s.timer)).mpr hel
  simp only [ColorCubeScene.update]
  rw [update_noConv s inp hred, spawnPhase_spawned _ inp ?gw ?gc,
    losePhase_skip _ inp ?glose, winPhase_skip _ ?gwin, resetPhase_skip _ inp ?gr]
  · exact ⟨rfl, rfl, rfl, hl, hw⟩
  case gw => exact hw
  case gc => exact hcond
  case glose =>
    intro hcc
    exact absurd (show s.lose = false from hcc.2) (by simp [hl])
  case gwin =>
    intro hcc
    exact absurd (show s.lose = false from hcc.2) (by simp [hl])
  case gr =>
    rintro ⟨_, hbtn⟩
    exact hbtn hb

/-- Witness for C10: from a Lost state with counter 5 and timer 0, an
update at clock 1000 still increments the counter and the scene stays
Lost. -/
theorem spawn_ignores_lose_w :
    (ColorCubeScene.update { sBase with lose := true } { inpBase with now := 1000 }).1.co2Count
        = ({ sBase with lose := true } : SceneState).co2Count + 1
      ∧ (ColorCubeScene.update { sBase with lose := true }
          { inpBase with now := 1000 }).1.lose = true :=
  ⟨(spawn_ignores_lose { sBase with lose := true } { inpBase with now := 1000 }
      rfl rfl rfl (by decide) (by decide)).2.1,
   (spawn_ignores_lose { sBase with lose := true } { inpBase with now := 1000 }
      rfl rfl rfl (by decide) (by decide)).2.2.2.1⟩
